import Mathlib

/-!
Shallow embedding of the campingHub reservation engine (routes/bookings.js,
routes/owners.js, routes/admin.js).  Dates and times are modelled as natural
numbers of milliseconds since the epoch; JavaScript `Date` values normalized
with `setHours(0,0,0,0)` become multiples of `msPerDay`.  Decimal prices are
modelled as rationals.  Each Express route handler that mutates bookings is
translated into a total function from the booking store to an `Except` result,
mirroring the handler's validation order and update payload.
-/

set_option linter.unusedVariables false

/-- Booking lifecycle states, as in the Prisma schema / route validation lists. -/
inductive BookingStatus where
  | PENDING
  | CONFIRMED
  | CANCELLED
  | COMPLETED
  | REFUNDED
  deriving DecidableEq, Repr

/-- Payment states, independent axis from `BookingStatus`. -/
inductive PaymentStatus where
  | PENDING
  | PAID
  | FAILED
  | REFUNDED
  deriving DecidableEq, Repr

/-- A stored booking row (fields used by the reservation engine). -/
structure Booking where
  id : Nat
  userId : Nat
  spotId : Nat
  checkIn : Nat
  checkOut : Nat
  guests : Nat
  totalPrice : ℚ
  status : BookingStatus
  paymentStatus : PaymentStatus
  notes : Option String
  deriving DecidableEq, Repr

/-- A camping spot row (fields read by the booking routes). -/
structure CampingSpot where
  id : Nat
  ownerId : Nat
  capacity : Nat
  price : ℚ
  isActive : Bool
  isInstantBook : Bool
  deriving DecidableEq, Repr

def msPerHour : Nat := 1000 * 60 * 60

def msPerDay : Nat := 1000 * 60 * 60 * 24

/-- `new Date(t).setHours(0,0,0,0)` in the fixed reference timezone. -/
def normalizeDate (t : Nat) : Nat := t - t % msPerDay

/-- `Math.ceil((checkOut - checkIn) / (1000*60*60*24))` on non-negative spans. -/
def nightsOf (checkInDate checkOutDate : Nat) : Nat :=
  (checkOutDate - checkInDate + (msPerDay - 1)) / msPerDay

/-- `s?.trim() || null`: trim, then JavaScript truthiness (empty string is falsy). -/
def jsTrimOrNull (n : Option String) : Option String :=
  match n with
  | none => none
  | some s => if s.trim = "" then none else some s.trim

/-- Status filter `status: { in: ['CONFIRMED', 'PENDING'] }` used by the conflict queries. -/
def activeStatus (s : BookingStatus) : Bool :=
  s == .CONFIRMED || s == .PENDING

/-- `['CANCELLED', 'COMPLETED', 'REFUNDED'].includes(booking.status)`. -/
def isTerminalStatus (s : BookingStatus) : Bool :=
  s == .CANCELLED || s == .COMPLETED || s == .REFUNDED

/-- The four-clause `OR` of the conflict query in POST /api/bookings:
an existing booking `b` collides with the candidate range
`[checkInDate, checkOutDate)` iff one of the four Prisma clauses matches. -/
def conflictsWith (checkInDate checkOutDate : Nat) (b : Booking) : Bool :=
  (decide (b.checkIn < checkInDate) && decide (checkInDate < b.checkOut))
  || (decide (b.checkIn < checkOutDate) && decide (checkOutDate < b.checkOut))
  || (decide (checkInDate ≤ b.checkIn) && decide (b.checkOut ≤ checkOutDate))
  || (decide (b.checkIn ≤ checkInDate) && decide (checkOutDate ≤ b.checkOut))

/-- The spec's overlap rule on half-open intervals:
`[a1,a2)` and `[b1,b2)` overlap iff `a1 < b2 AND b1 < a2`. -/
def specOverlap (a1 a2 b1 b2 : Nat) : Prop := a1 < b2 ∧ b1 < a2

instance (a1 a2 b1 b2 : Nat) : Decidable (specOverlap a1 a2 b1 b2) := by
  unfold specOverlap; infer_instance

/-- The `conflictingBookings` / `finalConflictCheck` query: bookings of the spot
with active status whose range collides with the candidate range. -/
def conflictList (store : List Booking) (spotId checkInDate checkOutDate : Nat) :
    List Booking :=
  store.filter fun b =>
    b.spotId == spotId && activeStatus b.status && conflictsWith checkInDate checkOutDate b

/-- `prisma.campingSpot.findUnique({ where: { id } })`. -/
def findSpot (spots : List CampingSpot) (id : Nat) : Option CampingSpot :=
  spots.find? fun s => s.id == id

/-- `prisma.booking.findFirst({ where: { id, userId } })`. -/
def findUserBooking (store : List Booking) (userId bookingId : Nat) : Option Booking :=
  store.find? fun b => b.id == bookingId && b.userId == userId

/-- Request body of POST /api/bookings after parsing. -/
structure CreateReq where
  spotId : Nat
  checkIn : Nat
  checkOut : Nat
  guests : Nat
  notes : Option String
  deriving DecidableEq, Repr

/-- Error responses of POST /api/bookings, in source order. -/
inductive CreateError where
  | checkInPast
  | checkOutNotAfter
  | durationTooLong
  | invalidGuests
  | spotNotFound
  | spotNotActive
  | capacityExceeded
  | ownSpotBooking
  | slotUnavailable (conflictingDates : List (Nat × Nat))
  | bookingConflict
  deriving DecidableEq, Repr

/-- Both 409 outcomes are the "dates are not available" failure. -/
def isSlotUnavailable : CreateError → Bool
  | .slotUnavailable _ => true
  | .bookingConflict => true
  | _ => false

/-- Data carried from the validation phase into the transaction. -/
structure CreateCtx where
  spot : CampingSpot
  checkInDate : Nat
  checkOutDate : Nat
  deriving DecidableEq, Repr

/-- The validation phase of POST /api/bookings, up to and including the
pre-transaction `conflictingBookings` query, in the handler's order. -/
def validateCreate (spots : List CampingSpot) (store : List Booking)
    (userId today : Nat) (req : CreateReq) : Except CreateError CreateCtx :=
  let checkInDate := normalizeDate req.checkIn
  let checkOutDate := normalizeDate req.checkOut
  if checkInDate < today then .error .checkInPast
  else if checkOutDate ≤ checkInDate then .error .checkOutNotAfter
  else if 30 * msPerDay < checkOutDate - checkInDate then .error .durationTooLong
  else if req.guests = 0 ∨ 50 < req.guests then .error .invalidGuests
  else
    match findSpot spots req.spotId with
    | none => .error .spotNotFound
    | some spot =>
      if !spot.isActive then .error .spotNotActive
      else if spot.capacity < req.guests then .error .capacityExceeded
      else if spot.ownerId = userId then .error .ownSpotBooking
      else
        let conflicts := conflictList store req.spotId checkInDate checkOutDate
        if conflicts ≠ [] then
          .error (.slotUnavailable (conflicts.map fun b => (b.checkIn, b.checkOut)))
        else .ok ⟨spot, checkInDate, checkOutDate⟩

/-- The row inserted by `prisma.booking.create` inside the transaction. -/
def mkBooking (nextId userId : Nat) (req : CreateReq) (ctx : CreateCtx) : Booking :=
  { id := nextId
    userId := userId
    spotId := req.spotId
    checkIn := ctx.checkInDate
    checkOut := ctx.checkOutDate
    guests := req.guests
    totalPrice := (nightsOf ctx.checkInDate ctx.checkOutDate : ℚ) * ctx.spot.price
    status := if ctx.spot.isInstantBook then .CONFIRMED else .PENDING
    paymentStatus := .PENDING
    notes := jsTrimOrNull req.notes }

/-- The body of `prisma.$transaction`: the `finalConflictCheck` re-query
(`throw new Error('BOOKING_CONFLICT')` on a hit) followed by the insert. -/
def txBody (store : List Booking) (nextId userId : Nat) (req : CreateReq)
    (ctx : CreateCtx) : Except CreateError Booking :=
  let finalConflictCheck := conflictList store req.spotId ctx.checkInDate ctx.checkOutDate
  if finalConflictCheck ≠ [] then .error .bookingConflict
  else .ok (mkBooking nextId userId req ctx)

/-- POST /api/bookings without store faults: validation phase, then the
transaction body against the same (sequentially unchanged) store. -/
def createBooking (spots : List CampingSpot) (store : List Booking)
    (nextId userId today : Nat) (req : CreateReq) : Except CreateError Booking :=
  match validateCreate spots store userId today req with
  | .error e => .error e
  | .ok ctx => txBody store nextId userId req ctx

/-- Error responses of PUT /api/bookings/:id/cancel, in source order. -/
inductive CancelError where
  | bookingNotFound
  | alreadyCancelled
  | cannotCancelCompleted
  | cannotCancelRefunded
  | windowExpired
  deriving DecidableEq, Repr

/-- `canCancelBooking(booking)`: at least 24 hours until check-in
(`hoursUntilCheckIn = (checkInDate - now) / (1000*60*60)`) and the status
is not terminal. -/
def canCancelBooking (b : Booking) (now : Nat) : Bool :=
  decide ((24 : ℚ) ≤ ((b.checkIn : ℚ) - (now : ℚ)) / ((1000 : ℚ) * 60 * 60))
  && !(isTerminalStatus b.status)

/-- `notes: reason ? `Cancelled: ${reason}` : booking.notes` — a truthy
(non-empty) reason replaces the notes, otherwise they are kept. -/
def cancelNotes (reason : Option String) (old : Option String) : Option String :=
  match reason with
  | some r => if r ≠ "" then some ("Cancelled: " ++ r) else old
  | none => old

/-- PUT /api/bookings/:id/cancel: authorizes by `(id, userId)`, rejects
terminal states with dedicated messages, applies the 24-hour window, then
updates status, refund-on-PAID payment status, and the notes field.
Returns the updated store together with the updated booking. -/
def cancelBooking (store : List Booking) (userId bookingId : Nat)
    (reason : Option String) (now : Nat) :
    Except CancelError (List Booking × Booking) :=
  match findUserBooking store userId bookingId with
  | none => .error .bookingNotFound
  | some booking =>
    if booking.status = .CANCELLED then .error .alreadyCancelled
    else if booking.status = .COMPLETED then .error .cannotCancelCompleted
    else if booking.status = .REFUNDED then .error .cannotCancelRefunded
    else if !canCancelBooking booking now then .error .windowExpired
    else
      let updated : Booking :=
        { booking with
          status := .CANCELLED
          paymentStatus :=
            if booking.paymentStatus = .PAID then PaymentStatus.REFUNDED
            else booking.paymentStatus
          notes := cancelNotes reason booking.notes }
      .ok (store.map (fun b => if b.id == bookingId then updated else b), updated)

/-- Error responses of PUT /api/bookings/:id/payment. -/
inductive PaymentUpdateError where
  | bookingNotFound
  deriving DecidableEq, Repr

/-- PUT /api/bookings/:id/payment: sets the payment status; if the new payment
status is PAID while the booking is PENDING, also confirms the booking;
appends payment info to the notes when provided.  No check of the current
booking status is performed. -/
def updatePaymentStatus (store : List Booking) (userId bookingId : Nat)
    (paymentStatus : PaymentStatus) (paymentMethod transactionId : Option String) :
    Except PaymentUpdateError (List Booking × Booking) :=
  match findUserBooking store userId bookingId with
  | none => .error .bookingNotFound
  | some booking =>
    let newStatus :=
      if paymentStatus = .PAID ∧ booking.status = .PENDING then BookingStatus.CONFIRMED
      else booking.status
    let paymentInfo :=
      (match paymentMethod with
       | some m => ["Payment method: " ++ m]
       | none => []) ++
      (match transactionId with
       | some t => ["Transaction ID: " ++ t]
       | none => [])
    let newNotes :=
      if paymentInfo ≠ [] then
        match booking.notes with
        | some n => some (n ++ "\n" ++ String.intercalate ", " paymentInfo)
        | none => some (String.intercalate ", " paymentInfo)
      else booking.notes
    let updated : Booking :=
      { booking with
        status := newStatus
        paymentStatus := paymentStatus
        notes := newNotes }
    .ok (store.map (fun b => if b.id == bookingId then updated else b), updated)

/-- Error responses of PUT /api/owners/bookings/:id. -/
inductive OwnerUpdateError where
  | invalidStatus
  | bookingNotFound
  | onlyPendingBookings
  deriving DecidableEq, Repr

/-- `prisma.booking.findFirst({ where: { id, spot: { ownerId } } })`. -/
def findOwnerBooking (spots : List CampingSpot) (store : List Booking)
    (ownerId bookingId : Nat) : Option Booking :=
  store.find? fun b =>
    b.id == bookingId &&
    (match findSpot spots b.spotId with
     | some s => s.ownerId == ownerId
     | none => false)

/-- PUT /api/owners/bookings/:id (approve/reject): status must be CONFIRMED
or CANCELLED, the booking must belong to one of the owner's spots and be
PENDING; the update sets only status, optional notes, and updatedAt —
the payment status is left untouched. -/
def ownerUpdateBooking (spots : List CampingSpot) (store : List Booking)
    (ownerId bookingId : Nat) (status : BookingStatus) (notes : Option String) :
    Except OwnerUpdateError (List Booking × Booking) :=
  if status ≠ .CONFIRMED ∧ status ≠ .CANCELLED then .error .invalidStatus
  else
    match findOwnerBooking spots store ownerId bookingId with
    | none => .error .bookingNotFound
    | some booking =>
      if booking.status ≠ .PENDING then .error .onlyPendingBookings
      else
        let updated : Booking :=
          { booking with
            status := status
            notes :=
              match notes with
              | some n => if n ≠ "" then some n.trim else booking.notes
              | none => booking.notes }
        .ok (store.map (fun b => if b.id == bookingId then updated else b), updated)

/-- Error responses of PUT /api/admin/bookings/:id. -/
inductive AdminUpdateError where
  | bookingNotFound
  | noValidFields
  deriving DecidableEq, Repr

/-- PUT /api/admin/bookings/:id: any status in the validation list and any
payment status may be written, with no check against the booking's current
state.  `statusArg`, `paymentArg`, `notesArg` are `none` when the field is
absent from the request body; `notesArg = some none` models a provided falsy
notes value (stored as null). -/
def adminUpdateBooking (store : List Booking) (bookingId : Nat)
    (statusArg : Option BookingStatus) (paymentArg : Option PaymentStatus)
    (notesArg : Option (Option String)) :
    Except AdminUpdateError (List Booking × Booking) :=
  match store.find? (fun b => b.id == bookingId) with
  | none => .error .bookingNotFound
  | some booking =>
    if statusArg = none ∧ paymentArg = none ∧ notesArg = none then
      .error .noValidFields
    else
      let updated : Booking :=
        { booking with
          status := statusArg.getD booking.status
          paymentStatus := paymentArg.getD booking.paymentStatus
          notes :=
            match notesArg with
            | some (some n) => if n ≠ "" then some n.trim else none
            | some none => none
            | none => booking.notes }
      .ok (store.map (fun b => if b.id == bookingId then updated else b), updated)

/-- A stored review row. -/
structure Review where
  userId : Nat
  spotId : Nat
  rating : Nat
  comment : Option String
  isVerified : Bool
  deriving DecidableEq, Repr

/-- Error responses of POST /api/bookings/:id/review, in source order. -/
inductive ReviewError where
  | invalidRating
  | bookingNotFound
  | notEligibleForReview
  | duplicateReview
  deriving DecidableEq, Repr

/-- `canReviewBooking(booking)`: completed and paid. -/
def canReviewBooking (b : Booking) : Bool :=
  b.status == .COMPLETED && b.paymentStatus == .PAID

/-- POST /api/bookings/:id/review: rating in [1,5], booking owned by the
requester, `canReviewBooking`, then the duplicate check on the
`(userId, spotId)` pair, then the insert. -/
def addReview (store : List Booking) (reviews : List Review)
    (userId bookingId rating : Nat) (comment : Option String) :
    Except ReviewError (List Review × Review) :=
  if rating = 0 ∨ rating < 1 ∨ 5 < rating then .error .invalidRating
  else
    match findUserBooking store userId bookingId with
    | none => .error .bookingNotFound
    | some booking =>
      if !canReviewBooking booking then .error .notEligibleForReview
      else if reviews.any (fun r => r.userId == userId && r.spotId == booking.spotId) then
        .error .duplicateReview
      else
        let review : Review :=
          { userId := userId
            spotId := booking.spotId
            rating := rating
            comment := jsTrimOrNull comment
            isVerified := true }
        .ok (reviews ++ [review], review)

/-- Prisma-level failures that the catch handler of POST /api/bookings
distinguishes: unique-constraint (`P2002`), foreign-key (`P2003`), anything
else. -/
inductive StoreFault where
  | P2002
  | P2003
  | otherFault
  deriving DecidableEq, Repr

/-- How the catch handler surfaces a store fault thrown by the transaction:
`P2002` → 409 "A booking conflict occurred. Please try again.",
`P2003` → 400 "Invalid spot or user reference", anything else → 500. -/
inductive SurfacedFault where
  | conflict409
  | badReference400
  | infrastructure500
  deriving DecidableEq, Repr

def mapStoreFault : StoreFault → SurfacedFault
  | .P2002 => .conflict409
  | .P2003 => .badReference400
  | .otherFault => .infrastructure500

/-- Outcome of the full POST /api/bookings handler including the catch
clause: either an application-level error response, a surfaced store fault,
or the created booking. -/
inductive CreateOutcome where
  | appError (e : CreateError)
  | storeError (f : SurfacedFault)
  | created (b : Booking)
  deriving DecidableEq, Repr

/-- POST /api/bookings with injected store faults.  `faults` lists the fault
hitting each successive `prisma.$transaction` invocation (`head` hits the
first invocation); the handler invokes the transaction at most once, so at
most the head is ever consumed.  The second component counts the transaction
invocations the handler actually made. -/
def createBookingWithFaults (spots : List CampingSpot) (store : List Booking)
    (nextId userId today : Nat) (req : CreateReq) (faults : List StoreFault) :
    CreateOutcome × Nat :=
  match validateCreate spots store userId today req with
  | .error e => (.appError e, 0)
  | .ok ctx =>
    match faults with
    | f :: _ => (.storeError (mapStoreFault f), 1)
    | [] =>
      match txBody store nextId userId req ctx with
      | .error e => (.appError e, 1)
      | .ok b => (.created b, 1)

/-- The reservation-engine operations reachable through the HTTP layer. -/
inductive Op where
  | create (userId today : Nat) (req : CreateReq)
  | cancel (userId bookingId : Nat) (reason : Option String) (now : Nat)
  | ownerUpdate (ownerId bookingId : Nat) (status : BookingStatus) (notes : Option String)
  | payment (userId bookingId : Nat) (ps : PaymentStatus) (pm tx : Option String)
  | adminUpdate (bookingId : Nat) (statusArg : Option BookingStatus)
      (paymentArg : Option PaymentStatus) (notesArg : Option (Option String))
  deriving DecidableEq, Repr

/-- The persistent state: the booking table plus the id sequence. -/
structure EngineState where
  store : List Booking
  nextId : Nat
  deriving DecidableEq, Repr

/-- One operation applied to the state; failed requests leave it unchanged. -/
def applyOp (spots : List CampingSpot) (st : EngineState) (op : Op) : EngineState :=
  match op with
  | .create userId today req =>
    match createBooking spots st.store st.nextId userId today req with
    | .ok b => ⟨st.store ++ [b], st.nextId + 1⟩
    | .error _ => st
  | .cancel userId bookingId reason now =>
    match cancelBooking st.store userId bookingId reason now with
    | .ok (s, _) => ⟨s, st.nextId⟩
    | .error _ => st
  | .ownerUpdate ownerId bookingId status notes =>
    match ownerUpdateBooking spots st.store ownerId bookingId status notes with
    | .ok (s, _) => ⟨s, st.nextId⟩
    | .error _ => st
  | .payment userId bookingId ps pm tx =>
    match updatePaymentStatus st.store userId bookingId ps pm tx with
    | .ok (s, _) => ⟨s, st.nextId⟩
    | .error _ => st
  | .adminUpdate bookingId statusArg paymentArg notesArg =>
    match adminUpdateBooking st.store bookingId statusArg paymentArg notesArg with
    | .ok (s, _) => ⟨s, st.nextId⟩
    | .error _ => st

/-- Run a sequence of operations from the empty store. -/
def runOps (spots : List CampingSpot) (ops : List Op) : EngineState :=
  ops.foldl (applyOp spots) ⟨[], 0⟩

/-- The no-double-booking invariant: active bookings of one spot are pairwise
non-overlapping on `[checkIn, checkOut)`. -/
def noDoubleBooking (store : List Booking) : Prop :=
  ∀ b1 ∈ store, ∀ b2 ∈ store,
    b1.id ≠ b2.id → b1.spotId = b2.spotId →
    activeStatus b1.status = true → activeStatus b2.status = true →
    ¬ specOverlap b1.checkIn b1.checkOut b2.checkIn b2.checkOut

instance (store : List Booking) : Decidable (noDoubleBooking store) := by
  unfold noDoubleBooking; infer_instance

/-- Structural well-formedness maintained by the engine: valid ranges,
ids below the id sequence and pairwise distinct, and no double booking. -/
def wfState (st : EngineState) : Prop :=
  (∀ b ∈ st.store, b.checkIn < b.checkOut) ∧
  (∀ b ∈ st.store, b.id < st.nextId) ∧
  st.store.Pairwise (fun a b => a.id ≠ b.id) ∧
  noDoubleBooking st.store

/-- Admin updates that do not force a booking back into an active status:
the status field is absent or set to a terminal status.  All non-admin
operations are unrestricted. -/
def opSafe : Op → Prop
  | .adminUpdate _ (some s) _ _ => isTerminalStatus s = true
  | _ => True

instance (op : Op) : Decidable (opSafe op) := by
  cases op with
  | adminUpdate bookingId statusArg paymentArg notesArg =>
    cases statusArg with
    | none => exact .isTrue trivial
    | some s => unfold opSafe; infer_instance
  | create userId today req => exact .isTrue trivial
  | cancel userId bookingId reason now => exact .isTrue trivial
  | ownerUpdate ownerId bookingId status notes => exact .isTrue trivial
  | payment userId bookingId ps pm tx => exact .isTrue trivial

/-- Fixture: a regular (approval-required) active spot. -/
def exSpot : CampingSpot :=
  { id := 1, ownerId := 9, capacity := 4, price := 10, isActive := true, isInstantBook := false }

/-- Fixture: an instant-book active spot. -/
def exSpotInstant : CampingSpot :=
  { id := 2, ownerId := 9, capacity := 4, price := 10, isActive := true, isInstantBook := true }

def exSpots : List CampingSpot := [exSpot, exSpotInstant]

/-- Fixture: a request for spot 1, days 10..12, 2 guests. -/
def exReq : CreateReq :=
  { spotId := 1, checkIn := 10 * msPerDay, checkOut := 12 * msPerDay, guests := 2, notes := none }

/-- Fixture: a request for the instant-book spot 2, days 10..12. -/
def exReqInstant : CreateReq :=
  { spotId := 2, checkIn := 10 * msPerDay, checkOut := 12 * msPerDay, guests := 2, notes := none }

/-- Fixture: the claimed pricing example, 2025-08-01 to 2025-08-05 at rate 60.00
(epoch milliseconds of the two midnights). -/
def exSpotRate60 : CampingSpot :=
  { id := 3, ownerId := 9, capacity := 4, price := 60, isActive := true, isInstantBook := false }

def exReqAug : CreateReq :=
  { spotId := 3, checkIn := 1754006400000, checkOut := 1754352000000, guests := 2, notes := none }

/-- Fixture: an operation sequence from the empty store in which an admin
update reactivates a cancelled booking over an already re-booked range. -/
def exOps : List Op :=
  [ .create 2 0 exReq
  , .adminUpdate 0 (some .CANCELLED) none none
  , .create 2 0 exReq
  , .adminUpdate 0 (some .CONFIRMED) none none ]

/-- Fixture: a cancelled booking whose payment is still pending. -/
def exCancelled : Booking :=
  { id := 1, userId := 2, spotId := 1, checkIn := 10 * msPerDay, checkOut := 12 * msPerDay,
    guests := 2, totalPrice := 20, status := .CANCELLED, paymentStatus := .PENDING, notes := none }

/-- Fixture: a pending booking that has already been paid. -/
def exPendingPaid : Booking :=
  { id := 1, userId := 2, spotId := 1, checkIn := 10 * msPerDay, checkOut := 12 * msPerDay,
    guests := 2, totalPrice := 20, status := .PENDING, paymentStatus := .PAID, notes := none }

/-- Fixture: an existing confirmed booking on days 8..10 of spot 1. -/
def exEarlier : Booking :=
  { id := 0, userId := 3, spotId := 1, checkIn := 8 * msPerDay, checkOut := 10 * msPerDay,
    guests := 2, totalPrice := 20, status := .CONFIRMED, paymentStatus := .PENDING, notes := none }

/-- Fixture: a confirmed booking whose check-in is 23 hours after day 100. -/
def exBooking23h : Booking :=
  { id := 1, userId := 2, spotId := 1, checkIn := 100 * msPerDay + 23 * msPerHour,
    checkOut := 102 * msPerDay, guests := 2, totalPrice := 20,
    status := .CONFIRMED, paymentStatus := .PENDING, notes := none }

/-- Fixture: a confirmed paid booking whose check-in is 25 hours after day 100. -/
def exBooking25h : Booking :=
  { id := 1, userId := 2, spotId := 1, checkIn := 100 * msPerDay + 25 * msPerHour,
    checkOut := 103 * msPerDay, guests := 2, totalPrice := 20,
    status := .CONFIRMED, paymentStatus := .PAID, notes := some "hello" }

/-- Fixture: a completed, paid booking, eligible for review. -/
def exCompletedPaid : Booking :=
  { id := 1, userId := 2, spotId := 1, checkIn := 1 * msPerDay, checkOut := 2 * msPerDay,
    guests := 2, totalPrice := 20, status := .COMPLETED, paymentStatus := .PAID, notes := none }

/-- Fixture: an existing review by user 2 of spot 1. -/
def exReview : Review :=
  { userId := 2, spotId := 1, rating := 5, comment := none, isVerified := true }

/-- Fixture: a confirmed paid booking (not yet completed). -/
def exConfirmedPaid : Booking :=
  { id := 1, userId := 2, spotId := 1, checkIn := 10 * msPerDay, checkOut := 12 * msPerDay,
    guests := 2, totalPrice := 20, status := .CONFIRMED, paymentStatus := .PAID, notes := none }

/-- Fixture: the booking created from `exReqAug` on `exSpotRate60`: 4 nights at 60.00. -/
def exBookingAug : Booking :=
  { id := 0, userId := 2, spotId := 3, checkIn := 1754006400000, checkOut := 1754352000000,
    guests := 2, totalPrice := 240, status := .PENDING, paymentStatus := .PENDING, notes := none }

lemma specOverlap_imp_conflictsWith (ci co : Nat) (b : Booking)
    (h : specOverlap ci co b.checkIn b.checkOut) :
    conflictsWith ci co b = true := by
  simp only [specOverlap] at h
  simp only [conflictsWith, Bool.or_eq_true, Bool.and_eq_true, decide_eq_true_eq]
  omega

lemma conflictsWith_imp_specOverlap (ci co : Nat) (b : Booking)
    (hc : ci < co) (hb : b.checkIn < b.checkOut)
    (h : conflictsWith ci co b = true) :
    specOverlap ci co b.checkIn b.checkOut := by
  simp only [conflictsWith, Bool.or_eq_true, Bool.and_eq_true, decide_eq_true_eq] at h
  simp only [specOverlap]
  omega

lemma conflictList_eq_nil_iff (store : List Booking) (spotId ci co : Nat) :
    conflictList store spotId ci co = [] ↔
      ∀ b ∈ store, ¬ (b.spotId = spotId ∧ activeStatus b.status = true ∧
        conflictsWith ci co b = true) := by
  unfold conflictList
  rw [List.filter_eq_nil_iff]
  constructor
  · intro h b hb hcontra
    exact h b hb (by simp [hcontra.1, hcontra.2.1, hcontra.2.2])
  · intro h b hb hcontra
    simp only [Bool.and_eq_true, beq_iff_eq] at hcontra
    exact h b hb ⟨hcontra.1.1, hcontra.1.2, hcontra.2⟩

lemma conflictList_ne_nil_iff (store : List Booking) (spotId ci co : Nat)
    (hwf : ∀ b ∈ store, b.checkIn < b.checkOut) (hci : ci < co) :
    conflictList store spotId ci co ≠ [] ↔
      ∃ b ∈ store, b.spotId = spotId ∧ activeStatus b.status = true ∧
        specOverlap ci co b.checkIn b.checkOut := by
  rw [Ne, conflictList_eq_nil_iff]
  push_neg
  constructor
  · rintro ⟨b, hb, h1, h2, h3⟩
    exact ⟨b, hb, h1, h2, conflictsWith_imp_specOverlap ci co b hci (hwf b hb) h3⟩
  · rintro ⟨b, hb, h1, h2, h3⟩
    exact ⟨b, hb, h1, h2, specOverlap_imp_conflictsWith ci co b h3⟩

lemma validateCreate_ok {spots : List CampingSpot} {store : List Booking}
    {userId today : Nat} {req : CreateReq} {ctx : CreateCtx}
    (h : validateCreate spots store userId today req = .ok ctx) :
    ctx.checkInDate = normalizeDate req.checkIn ∧
    ctx.checkOutDate = normalizeDate req.checkOut ∧
    ctx.checkInDate < ctx.checkOutDate ∧
    findSpot spots req.spotId = some ctx.spot ∧
    conflictList store req.spotId ctx.checkInDate ctx.checkOutDate = [] := by
  simp only [validateCreate] at h
  repeat' split at h
  any_goals exact Except.noConfusion h
  rename_i h1 h2 h3 h4 xopt spot hfind h5 h6 h7 h8
  rw [Except.ok.injEq] at h
  subst h
  refine ⟨rfl, rfl, ?_, hfind, by simpa using h8⟩
  dsimp only
  omega

lemma createBooking_ok {spots : List CampingSpot} {store : List Booking}
    {nextId userId today : Nat} {req : CreateReq} {b : Booking}
    (h : createBooking spots store nextId userId today req = .ok b) :
    ∃ ctx, validateCreate spots store userId today req = .ok ctx ∧
      b = mkBooking nextId userId req ctx := by
  unfold createBooking at h
  cases hv : validateCreate spots store userId today req with
  | error e => rw [hv] at h; exact Except.noConfusion h
  | ok ctx =>
    rw [hv] at h
    simp only [txBody] at h
    split at h
    · exact Except.noConfusion h
    · exact ⟨ctx, rfl, ((Except.ok.injEq _ _).mp h).symm⟩

lemma createBooking_of_validate {spots : List CampingSpot} {store : List Booking}
    {nextId userId today : Nat} {req : CreateReq} {ctx : CreateCtx}
    (hv : validateCreate spots store userId today req = .ok ctx) :
    createBooking spots store nextId userId today req =
      .ok (mkBooking nextId userId req ctx) := by
  have hnil := (validateCreate_ok hv).2.2.2.2
  unfold createBooking txBody
  rw [hv]
  simp [hnil]

lemma validateCreate_reduce {spots : List CampingSpot} {store : List Booking}
    {userId today : Nat} {req : CreateReq} {spot : CampingSpot}
    (h1 : ¬ normalizeDate req.checkIn < today)
    (h2 : ¬ normalizeDate req.checkOut ≤ normalizeDate req.checkIn)
    (h3 : ¬ 30 * msPerDay < normalizeDate req.checkOut - normalizeDate req.checkIn)
    (h4 : ¬ (req.guests = 0 ∨ 50 < req.guests))
    (hfind : findSpot spots req.spotId = some spot)
    (h5 : spot.isActive = true)
    (h6 : ¬ spot.capacity < req.guests)
    (h7 : ¬ spot.ownerId = userId) :
    validateCreate spots store userId today req =
      (if conflictList store req.spotId (normalizeDate req.checkIn)
            (normalizeDate req.checkOut) ≠ [] then
        .error (.slotUnavailable
          ((conflictList store req.spotId (normalizeDate req.checkIn)
              (normalizeDate req.checkOut)).map fun b => (b.checkIn, b.checkOut)))
      else .ok ⟨spot, normalizeDate req.checkIn, normalizeDate req.checkOut⟩) := by
  simp only [validateCreate, hfind]
  rw [if_neg h1, if_neg h2, if_neg h3, if_neg h4, if_neg (by simp [h5]), if_neg h6, if_neg h7]

lemma canCancelBooking_iff (b : Booking) (now : Nat) :
    canCancelBooking b now = true ↔
      ((86400000 : Int) ≤ (b.checkIn : Int) - (now : Int) ∧
        isTerminalStatus b.status = false) := by
  unfold canCancelBooking
  rw [Bool.and_eq_true, decide_eq_true_eq, Bool.not_eq_true']
  constructor
  · rintro ⟨hq, hs⟩
    refine ⟨?_, hs⟩
    rw [le_div_iff₀ (by norm_num)] at hq
    have h : (86400000 : ℚ) ≤ (b.checkIn : ℚ) - (now : ℚ) := by linarith
    exact_mod_cast h
  · rintro ⟨hq, hs⟩
    refine ⟨?_, hs⟩
    rw [le_div_iff₀ (by norm_num)]
    have h : (86400000 : ℚ) ≤ (b.checkIn : ℚ) - (now : ℚ) := by exact_mod_cast hq
    linarith

lemma cancelBooking_ok_shape {store : List Booking} {userId bookingId : Nat}
    {reason : Option String} {now : Nat} {booking : Booking}
    {s2 : List Booking} {b2 : Booking}
    (hfind : findUserBooking store userId bookingId = some booking)
    (h : cancelBooking store userId bookingId reason now = .ok (s2, b2)) :
    isTerminalStatus booking.status = false ∧
    canCancelBooking booking now = true ∧
    b2.id = booking.id ∧ b2.userId = booking.userId ∧ b2.spotId = booking.spotId ∧
    b2.checkIn = booking.checkIn ∧ b2.checkOut = booking.checkOut ∧
    b2.guests = booking.guests ∧ b2.totalPrice = booking.totalPrice ∧
    b2.status = .CANCELLED ∧
    b2.paymentStatus =
      (if booking.paymentStatus = .PAID then .REFUNDED else booking.paymentStatus) ∧
    b2.notes = cancelNotes reason booking.notes ∧
    s2 = store.map (fun x => if x.id == bookingId then b2 else x) := by
  simp only [cancelBooking, hfind] at h
  split at h
  · exact Except.noConfusion h
  split at h
  · exact Except.noConfusion h
  split at h
  · exact Except.noConfusion h
  split at h
  · exact Except.noConfusion h
  rename_i hc1 hc2 hc3 hc4
  rw [Except.ok.injEq, Prod.mk.injEq] at h
  obtain ⟨hs, hb⟩ := h
  subst hb
  subst hs
  refine ⟨?_, by simpa using hc4, rfl, rfl, rfl, rfl, rfl, rfl, rfl, rfl, rfl, rfl, rfl⟩
  simp only [isTerminalStatus, Bool.or_eq_false_iff, beq_eq_false_iff_ne, ne_eq]
  exact ⟨⟨hc1, hc2⟩, hc3⟩

lemma cancelBooking_ok_iff {store : List Booking} {userId bookingId : Nat}
    {reason : Option String} {now : Nat} {booking : Booking}
    (hfind : findUserBooking store userId bookingId = some booking) :
    (∃ out, cancelBooking store userId bookingId reason now = .ok out) ↔
      (isTerminalStatus booking.status = false ∧ canCancelBooking booking now = true) := by
  constructor
  · rintro ⟨⟨s2, b2⟩, h⟩
    have hsh := cancelBooking_ok_shape hfind h
    exact ⟨hsh.1, hsh.2.1⟩
  · rintro ⟨ht, hc⟩
    simp only [isTerminalStatus, Bool.or_eq_false_iff, beq_eq_false_iff_ne, ne_eq] at ht
    cases hrun : cancelBooking store userId bookingId reason now with
    | ok out => exact ⟨out, rfl⟩
    | error e =>
      exfalso
      simp only [cancelBooking, hfind] at hrun
      rw [if_neg ht.1.1, if_neg ht.1.2, if_neg ht.2, if_neg (by simp [hc])] at hrun
      exact Except.noConfusion hrun

lemma updatePaymentStatus_ok_shape {store : List Booking} {userId bookingId : Nat}
    {ps : PaymentStatus} {pm tx : Option String} {booking : Booking}
    {s2 : List Booking} {b2 : Booking}
    (hfind : findUserBooking store userId bookingId = some booking)
    (h : updatePaymentStatus store userId bookingId ps pm tx = .ok (s2, b2)) :
    b2.id = booking.id ∧ b2.checkIn = booking.checkIn ∧ b2.checkOut = booking.checkOut ∧
    b2.spotId = booking.spotId ∧ b2.guests = booking.guests ∧
    b2.totalPrice = booking.totalPrice ∧
    b2.status =
      (if ps = .PAID ∧ booking.status = .PENDING then .CONFIRMED else booking.status) ∧
    b2.paymentStatus = ps ∧
    s2 = store.map (fun x => if x.id == bookingId then b2 else x) := by
  simp only [updatePaymentStatus, hfind] at h
  rw [Except.ok.injEq, Prod.mk.injEq] at h
  obtain ⟨hs, hb⟩ := h
  subst hb
  subst hs
  exact ⟨rfl, rfl, rfl, rfl, rfl, rfl, rfl, rfl, rfl⟩

lemma ownerUpdateBooking_ok_shape {spots : List CampingSpot} {store : List Booking}
    {ownerId bookingId : Nat} {status : BookingStatus} {notes : Option String}
    {booking : Booking} {s2 : List Booking} {b2 : Booking}
    (hfind : findOwnerBooking spots store ownerId bookingId = some booking)
    (h : ownerUpdateBooking spots store ownerId bookingId status notes = .ok (s2, b2)) :
    (status = .CONFIRMED ∨ status = .CANCELLED) ∧
    booking.status = .PENDING ∧
    b2.id = booking.id ∧ b2.checkIn = booking.checkIn ∧ b2.checkOut = booking.checkOut ∧
    b2.spotId = booking.spotId ∧ b2.guests = booking.guests ∧
    b2.totalPrice = booking.totalPrice ∧
    b2.status = status ∧
    b2.paymentStatus = booking.paymentStatus ∧
    s2 = store.map (fun x => if x.id == bookingId then b2 else x) := by
  simp only [ownerUpdateBooking, hfind] at h
  split at h
  · exact Except.noConfusion h
  split at h
  · exact Except.noConfusion h
  rename_i hvalid hpending
  rw [Except.ok.injEq, Prod.mk.injEq] at h
  obtain ⟨hs, hb⟩ := h
  subst hb
  subst hs
  refine ⟨?_, ?_, rfl, rfl, rfl, rfl, rfl, rfl, rfl, rfl, rfl⟩
  · by_cases hcf : status = BookingStatus.CONFIRMED
    · exact Or.inl hcf
    · exact Or.inr (by_contra fun hcc => hvalid ⟨hcf, hcc⟩)
  · exact not_not.mp hpending

lemma adminUpdateBooking_ok_shape {store : List Booking} {bookingId : Nat}
    {statusArg : Option BookingStatus} {paymentArg : Option PaymentStatus}
    {notesArg : Option (Option String)} {booking : Booking}
    {s2 : List Booking} {b2 : Booking}
    (hfind : store.find? (fun b => b.id == bookingId) = some booking)
    (h : adminUpdateBooking store bookingId statusArg paymentArg notesArg = .ok (s2, b2)) :
    b2.id = booking.id ∧ b2.checkIn = booking.checkIn ∧ b2.checkOut = booking.checkOut ∧
    b2.spotId = booking.spotId ∧ b2.guests = booking.guests ∧
    b2.totalPrice = booking.totalPrice ∧
    b2.status = statusArg.getD booking.status ∧
    b2.paymentStatus = paymentArg.getD booking.paymentStatus ∧
    s2 = store.map (fun x => if x.id == bookingId then b2 else x) := by
  simp only [adminUpdateBooking, hfind] at h
  split at h
  · exact Except.noConfusion h
  rw [Except.ok.injEq, Prod.mk.injEq] at h
  obtain ⟨hs, hb⟩ := h
  subst hb
  subst hs
  exact ⟨rfl, rfl, rfl, rfl, rfl, rfl, rfl, rfl, rfl⟩

lemma addReview_ok_iff {store : List Booking} {reviews : List Review}
    {userId bookingId rating : Nat} {comment : Option String} {booking : Booking}
    (hrating : ¬ (rating = 0 ∨ rating < 1 ∨ 5 < rating))
    (hfind : findUserBooking store userId bookingId = some booking) :
    ((∃ out, addReview store reviews userId bookingId rating comment = .ok out) ↔
      (canReviewBooking booking = true ∧
        ¬ ∃ r ∈ reviews, r.userId = userId ∧ r.spotId = booking.spotId)) ∧
    (canReviewBooking booking = false →
      addReview store reviews userId bookingId rating comment =
        .error .notEligibleForReview) ∧
    (canReviewBooking booking = true →
      (∃ r ∈ reviews, r.userId = userId ∧ r.spotId = booking.spotId) →
      addReview store reviews userId bookingId rating comment =
        .error .duplicateReview) := by
  have hdup : (reviews.any fun r => r.userId == userId && r.spotId == booking.spotId) = true ↔
      ∃ r ∈ reviews, r.userId = userId ∧ r.spotId = booking.spotId := by
    simp [List.any_eq_true]
  refine ⟨⟨?_, ?_⟩, ?_, ?_⟩
  · rintro ⟨out, h⟩
    simp only [addReview, hfind] at h
    rw [if_neg hrating] at h
    split at h
    · exact Except.noConfusion h
    split at h
    · exact Except.noConfusion h
    rename_i hel hdp
    refine ⟨by simpa using hel, fun hex => hdp (hdup.mpr hex)⟩
  · rintro ⟨hel, hnodup⟩
    cases hrun : addReview store reviews userId bookingId rating comment with
    | ok out => exact ⟨out, rfl⟩
    | error e =>
      exfalso
      simp only [addReview, hfind] at hrun
      rw [if_neg hrating, if_neg (by simp [hel]),
        if_neg (fun hh => hnodup (hdup.mp hh))] at hrun
      exact Except.noConfusion hrun
  · intro hel
    simp only [addReview, hfind]
    rw [if_neg hrating, if_pos (by simp [hel])]
  · intro hel hex
    simp only [addReview, hfind]
    rw [if_neg hrating, if_neg (by simp [hel]), if_pos (hdup.mpr hex)]

lemma specOverlap_comm {a1 a2 b1 b2 : Nat} (h : specOverlap a1 a2 b1 b2) :
    specOverlap b1 b2 a1 a2 := ⟨h.2, h.1⟩

lemma pairwise_id_inj {store : List Booking}
    (hpw : store.Pairwise (fun a b => a.id ≠ b.id))
    {x y : Booking} (hx : x ∈ store) (hy : y ∈ store) (hid : x.id = y.id) : x = y := by
  by_contra hne
  exact List.Pairwise.forall (by intro a b h e; exact h e.symm) hpw hx hy hne hid

lemma wf_map_update {store : List Booking} {n : Nat} (f : Booking → Booking)
    (hid : ∀ b ∈ store, (f b).id = b.id)
    (hci : ∀ b ∈ store, (f b).checkIn = b.checkIn)
    (hco : ∀ b ∈ store, (f b).checkOut = b.checkOut)
    (hsp : ∀ b ∈ store, (f b).spotId = b.spotId)
    (hact : ∀ b ∈ store, activeStatus (f b).status = true → activeStatus b.status = true)
    (hwf : wfState ⟨store, n⟩) : wfState ⟨store.map f, n⟩ := by
  obtain ⟨hw1, hw2, hw3, hw4⟩ := hwf
  refine ⟨?_, ?_, ?_, ?_⟩
  · intro b hb
    obtain ⟨a, ha, rfl⟩ := List.mem_map.mp hb
    rw [hci a ha, hco a ha]
    exact hw1 a ha
  · intro b hb
    obtain ⟨a, ha, rfl⟩ := List.mem_map.mp hb
    rw [hid a ha]
    exact hw2 a ha
  · rw [List.pairwise_map]
    exact List.Pairwise.imp_of_mem
      (fun ha hb hne => by rw [hid _ ha, hid _ hb]; exact hne) hw3
  · intro b1 hb1 b2 hb2 hne hspot ha1 ha2
    obtain ⟨a1, ha1m, rfl⟩ := List.mem_map.mp hb1
    obtain ⟨a2, ha2m, rfl⟩ := List.mem_map.mp hb2
    rw [hci a1 ha1m, hco a1 ha1m, hci a2 ha2m, hco a2 ha2m]
    rw [hid a1 ha1m, hid a2 ha2m] at hne
    rw [hsp a1 ha1m, hsp a2 ha2m] at hspot
    exact hw4 a1 ha1m a2 ha2m hne hspot (hact a1 ha1m ha1) (hact a2 ha2m ha2)

lemma wf_create {spots : List CampingSpot} {st : EngineState}
    {userId today : Nat} {req : CreateReq} {b : Booking}
    (hwf : wfState st)
    (hok : createBooking spots st.store st.nextId userId today req = .ok b) :
    wfState ⟨st.store ++ [b], st.nextId + 1⟩ := by
  obtain ⟨hw1, hw2, hw3, hw4⟩ := hwf
  obtain ⟨ctx, hv, rfl⟩ := createBooking_ok hok
  obtain ⟨hcie, hcoe, hlt, hfind, hnil⟩ := validateCreate_ok hv
  have hnoc := (conflictList_eq_nil_iff _ _ _ _).mp hnil
  have hmkid : (mkBooking st.nextId userId req ctx).id = st.nextId := rfl
  have hmkci : (mkBooking st.nextId userId req ctx).checkIn = ctx.checkInDate := rfl
  have hmkco : (mkBooking st.nextId userId req ctx).checkOut = ctx.checkOutDate := rfl
  have hmksp : (mkBooking st.nextId userId req ctx).spotId = req.spotId := rfl
  refine ⟨?_, ?_, ?_, ?_⟩
  · intro x hx
    rcases List.mem_append.mp hx with hold | hnew
    · exact hw1 x hold
    · rw [List.mem_singleton.mp hnew, hmkci, hmkco]; exact hlt
  · intro x hx
    rcases List.mem_append.mp hx with hold | hnew
    · exact Nat.lt_succ_of_lt (hw2 x hold)
    · rw [List.mem_singleton.mp hnew, hmkid]; exact Nat.lt_succ_self _
  · rw [List.pairwise_append]
    refine ⟨hw3, List.pairwise_singleton _ _, ?_⟩
    intro x hxold y hynew
    rw [List.mem_singleton.mp hynew, hmkid]
    exact Nat.ne_of_lt (hw2 x hxold)
  · intro b1 hb1 b2 hb2 hne hspot ha1 ha2
    rcases List.mem_append.mp hb1 with h1old | h1new <;>
      rcases List.mem_append.mp hb2 with h2old | h2new
    · exact hw4 b1 h1old b2 h2old hne hspot ha1 ha2
    · rw [List.mem_singleton.mp h2new] at hspot ⊢
      rw [hmksp] at hspot
      rw [hmkci, hmkco]
      intro hov
      have hb1conf : conflictsWith ctx.checkInDate ctx.checkOutDate b1 = true :=
        specOverlap_imp_conflictsWith _ _ _ (specOverlap_comm hov)
      exact hnoc b1 h1old ⟨hspot, ha1, hb1conf⟩
    · rw [List.mem_singleton.mp h1new] at hspot ⊢
      rw [hmksp] at hspot
      rw [hmkci, hmkco]
      intro hov
      have hb2conf : conflictsWith ctx.checkInDate ctx.checkOutDate b2 = true :=
        specOverlap_imp_conflictsWith _ _ _ hov
      exact hnoc b2 h2old ⟨hspot.symm, ha2, hb2conf⟩
    · rw [List.mem_singleton.mp h1new, List.mem_singleton.mp h2new] at hne
      exact absurd rfl hne

lemma activeStatus_of_terminal {s : BookingStatus} (h : isTerminalStatus s = true) :
    activeStatus s = false := by
  cases s <;> simp_all [isTerminalStatus, activeStatus]

lemma findUserBooking_facts {store : List Booking} {userId bookingId : Nat}
    {booking : Booking} (h : findUserBooking store userId bookingId = some booking) :
    booking ∈ store ∧ booking.id = bookingId := by
  refine ⟨List.mem_of_find?_eq_some h, ?_⟩
  have hp := List.find?_some h
  simp only [Bool.and_eq_true, beq_iff_eq] at hp
  exact hp.1

lemma findOwnerBooking_facts {spots : List CampingSpot} {store : List Booking}
    {ownerId bookingId : Nat} {booking : Booking}
    (h : findOwnerBooking spots store ownerId bookingId = some booking) :
    booking ∈ store ∧ booking.id = bookingId := by
  refine ⟨List.mem_of_find?_eq_some h, ?_⟩
  have hp := List.find?_some h
  simp only [Bool.and_eq_true, beq_iff_eq] at hp
  exact hp.1

lemma findById_facts {store : List Booking} {bookingId : Nat} {booking : Booking}
    (h : store.find? (fun b => b.id == bookingId) = some booking) :
    booking ∈ store ∧ booking.id = bookingId := by
  refine ⟨List.mem_of_find?_eq_some h, ?_⟩
  have hp := List.find?_some h
  simpa using hp

lemma wf_update_booking {store : List Booking} {n bookingId : Nat}
    {booking b2 : Booking}
    (hwf : wfState ⟨store, n⟩)
    (hmem : booking ∈ store) (hbid : booking.id = bookingId)
    (hid : b2.id = booking.id) (hci : b2.checkIn = booking.checkIn)
    (hco : b2.checkOut = booking.checkOut) (hsp : b2.spotId = booking.spotId)
    (hact : activeStatus b2.status = true → activeStatus booking.status = true) :
    wfState ⟨store.map (fun x => if x.id == bookingId then b2 else x), n⟩ := by
  have hw3 := hwf.2.2.1
  have key : ∀ x ∈ store, (x.id == bookingId) = true → x = booking := by
    intro x hx hxb
    rw [beq_iff_eq] at hxb
    exact pairwise_id_inj hw3 hx hmem (by rw [hxb, hbid])
  apply wf_map_update _ _ _ _ _ _ hwf
  · intro x hx
    by_cases hxb : (x.id == bookingId) = true
    · rw [if_pos hxb, hid, key x hx hxb]
    · rw [if_neg hxb]
  · intro x hx
    by_cases hxb : (x.id == bookingId) = true
    · rw [if_pos hxb, hci, key x hx hxb]
    · rw [if_neg hxb]
  · intro x hx
    by_cases hxb : (x.id == bookingId) = true
    · rw [if_pos hxb, hco, key x hx hxb]
    · rw [if_neg hxb]
  · intro x hx
    by_cases hxb : (x.id == bookingId) = true
    · rw [if_pos hxb, hsp, key x hx hxb]
    · rw [if_neg hxb]
  · intro x hx
    by_cases hxb : (x.id == bookingId) = true
    · rw [if_pos hxb, key x hx hxb]
      exact hact
    · rw [if_neg hxb]
      exact id

lemma wf_applyOp {spots : List CampingSpot} {st : EngineState} {op : Op}
    (hsafe : opSafe op) (hwf : wfState st) : wfState (applyOp spots st op) := by
  cases op with
  | create userId today req =>
    simp only [applyOp]
    cases hres : createBooking spots st.store st.nextId userId today req with
    | ok b => exact wf_create hwf hres
    | error e => exact hwf
  | cancel userId bookingId reason now =>
    simp only [applyOp]
    cases hres : cancelBooking st.store userId bookingId reason now with
    | error e => exact hwf
    | ok out =>
      obtain ⟨s2, b2⟩ := out
      cases hfind : findUserBooking st.store userId bookingId with
      | none =>
        simp only [cancelBooking, hfind] at hres
        exact Except.noConfusion hres
      | some booking =>
        obtain ⟨hmem, hbid⟩ := findUserBooking_facts hfind
        obtain ⟨ht, hc, hid, hu, hsp, hci, hco, hg, hp, hst, hps, hn, hs2⟩ :=
          cancelBooking_ok_shape hfind hres
        rw [hs2]
        exact wf_update_booking hwf hmem hbid hid hci hco hsp
          (by rw [hst]; intro hcontra; exact absurd hcontra (by simp [activeStatus]))
  | ownerUpdate ownerId bookingId status notes =>
    simp only [applyOp]
    cases hres : ownerUpdateBooking spots st.store ownerId bookingId status notes with
    | error e => exact hwf
    | ok out =>
      obtain ⟨s2, b2⟩ := out
      cases hvalid : decide (status ≠ .CONFIRMED ∧ status ≠ .CANCELLED) with
      | true =>
        rw [ownerUpdateBooking, if_pos (of_decide_eq_true hvalid)] at hres
        exact Except.noConfusion hres
      | false =>
        cases hfind : findOwnerBooking spots st.store ownerId bookingId with
        | none =>
          rw [ownerUpdateBooking, if_neg (of_decide_eq_false hvalid), hfind] at hres
          exact Except.noConfusion hres
        | some booking =>
          obtain ⟨hmem, hbid⟩ := findOwnerBooking_facts hfind
          obtain ⟨hv, hpend, hid, hci, hco, hsp, hg, hp, hst, hps, hs2⟩ :=
            ownerUpdateBooking_ok_shape hfind hres
          rw [hs2]
          exact wf_update_booking hwf hmem hbid hid hci hco hsp
            (fun _ => by rw [hpend]; simp [activeStatus])
  | payment userId bookingId ps pm tx =>
    simp only [applyOp]
    cases hres : updatePaymentStatus st.store userId bookingId ps pm tx with
    | error e => exact hwf
    | ok out =>
      obtain ⟨s2, b2⟩ := out
      cases hfind : findUserBooking st.store userId bookingId with
      | none =>
        simp only [updatePaymentStatus, hfind] at hres
        exact Except.noConfusion hres
      | some booking =>
        obtain ⟨hmem, hbid⟩ := findUserBooking_facts hfind
        obtain ⟨hid, hci, hco, hsp, hg, hp, hst, hps, hs2⟩ :=
          updatePaymentStatus_ok_shape hfind hres
        rw [hs2]
        refine wf_update_booking hwf hmem hbid hid hci hco hsp ?_
        rw [hst]
        by_cases hcond : ps = PaymentStatus.PAID ∧ booking.status = .PENDING
        · rw [if_pos hcond]
          intro _
          rw [hcond.2]
          simp [activeStatus]
        · rw [if_neg hcond]
          exact id
  | adminUpdate bookingId statusArg paymentArg notesArg =>
    simp only [applyOp]
    cases hres : adminUpdateBooking st.store bookingId statusArg paymentArg notesArg with
    | error e => exact hwf
    | ok out =>
      obtain ⟨s2, b2⟩ := out
      cases hfind : st.store.find? (fun b => b.id == bookingId) with
      | none =>
        simp only [adminUpdateBooking, hfind] at hres
        exact Except.noConfusion hres
      | some booking =>
        obtain ⟨hmem, hbid⟩ := findById_facts hfind
        obtain ⟨hid, hci, hco, hsp, hg, hp, hst, hps, hs2⟩ :=
          adminUpdateBooking_ok_shape hfind hres
        rw [hs2]
        refine wf_update_booking hwf hmem hbid hid hci hco hsp ?_
        rw [hst]
        cases statusArg with
        | none => exact id
        | some s =>
          intro hcontra
          rw [Option.getD_some] at hcontra
          rw [activeStatus_of_terminal hsafe] at hcontra
          exact Bool.noConfusion hcontra

lemma wf_empty : wfState ⟨[], 0⟩ := by
  refine ⟨?_, ?_, ?_, ?_⟩ <;> simp [noDoubleBooking]

lemma wf_foldl {spots : List CampingSpot} {ops : List Op} {st : EngineState}
    (hsafe : ∀ op ∈ ops, opSafe op) (hwf : wfState st) :
    wfState (ops.foldl (applyOp spots) st) := by
  induction ops generalizing st with
  | nil => exact hwf
  | cons op rest ih =>
    exact ih (fun o ho => hsafe o (List.mem_cons_of_mem _ ho))
      (wf_applyOp (hsafe op (List.mem_cons_self _ _)) hwf)

lemma wf_runOps {spots : List CampingSpot} {ops : List Op}
    (hsafe : ∀ op ∈ ops, opSafe op) : wfState (runOps spots ops) :=
  wf_foldl hsafe wf_empty

lemma nightsOf_ceil {ci co : Nat} (h : ci < co) :
    0 < nightsOf ci co ∧ co - ci ≤ nightsOf ci co * msPerDay ∧
      (nightsOf ci co - 1) * msPerDay < co - ci := by
  unfold nightsOf msPerDay
  omega

lemma mkBooking_active (nextId userId : Nat) (req : CreateReq) (ctx : CreateCtx) :
    activeStatus (mkBooking nextId userId req ctx).status = true := by
  simp only [mkBooking]
  by_cases hib : ctx.spot.isInstantBook = true <;> simp [hib, activeStatus]

lemma terminal_ne_pending {s : BookingStatus} (h : isTerminalStatus s = true) :
    s ≠ .PENDING := by
  cases s <;> simp_all [isTerminalStatus]

lemma canReviewBooking_iff (b : Booking) :
    canReviewBooking b = true ↔
      (b.status = .COMPLETED ∧ b.paymentStatus = .PAID) := by
  simp [canReviewBooking]

lemma cancel_terminal_error {store : List Booking} {userId bookingId : Nat}
    {reason : Option String} {now : Nat} {booking : Booking}
    (hfind : findUserBooking store userId bookingId = some booking)
    (ht : isTerminalStatus booking.status = true) :
    cancelBooking store userId bookingId reason now = .error .alreadyCancelled ∨
    cancelBooking store userId bookingId reason now = .error .cannotCancelCompleted ∨
    cancelBooking store userId bookingId reason now = .error .cannotCancelRefunded := by
  cases hst : booking.status with
  | CANCELLED =>
    left
    simp only [cancelBooking, hfind]
    rw [if_pos hst]
  | COMPLETED =>
    right; left
    simp only [cancelBooking, hfind]
    rw [if_neg (by rw [hst]; intro hh; exact BookingStatus.noConfusion hh), if_pos hst]
  | REFUNDED =>
    right; right
    simp only [cancelBooking, hfind]
    rw [if_neg (by rw [hst]; intro hh; exact BookingStatus.noConfusion hh),
      if_neg (by rw [hst]; intro hh; exact BookingStatus.noConfusion hh), if_pos hst]
  | PENDING => rw [hst] at ht; exact absurd ht (by simp [isTerminalStatus])
  | CONFIRMED => rw [hst] at ht; exact absurd ht (by simp [isTerminalStatus])

/-- C3: every reservation accepted by POST /api/bookings has
`totalPrice = nights * pricePerNight`, where `nights` is the ceiling of the
day span of `[checkIn, checkOut)` — a positive integer, partial days rounding
up — and `pricePerNight` is the rate of the spot fetched at creation time. -/
theorem claim3_pricing {spots : List CampingSpot} {store : List Booking}
    {nextId userId today : Nat} {req : CreateReq} {spot : CampingSpot} {b : Booking}
    (hok : createBooking spots store nextId userId today req = .ok b)
    (hspot : findSpot spots req.spotId = some spot) :
    b.totalPrice = (nightsOf b.checkIn b.checkOut : ℚ) * spot.price ∧
    0 < nightsOf b.checkIn b.checkOut ∧
    b.checkOut - b.checkIn ≤ nightsOf b.checkIn b.checkOut * msPerDay ∧
    (nightsOf b.checkIn b.checkOut - 1) * msPerDay < b.checkOut - b.checkIn := by
  obtain ⟨ctx, hv, rfl⟩ := createBooking_ok hok
  obtain ⟨hci, hco, hlt, hfind, hnil⟩ := validateCreate_ok hv
  rw [hspot] at hfind
  have hsp : spot = ctx.spot := Option.some.inj hfind
  have hceil := nightsOf_ceil hlt
  subst hsp
  exact ⟨rfl, hceil.1, hceil.2.1, hceil.2.2⟩

/-- C3 witness: checkIn 2025-08-01, checkOut 2025-08-05 at rate 60.00 gives a
booking with 4 nights and totalPrice 240.00. -/
theorem claim3_pricing_witness :
    createBooking [exSpotRate60] [] 0 2 0 exReqAug =
      .ok (mkBooking 0 2 exReqAug ⟨exSpotRate60, 1754006400000, 1754352000000⟩) ∧
    findSpot [exSpotRate60] exReqAug.spotId = some exSpotRate60 ∧
    nightsOf (mkBooking 0 2 exReqAug ⟨exSpotRate60, 1754006400000, 1754352000000⟩).checkIn
      (mkBooking 0 2 exReqAug ⟨exSpotRate60, 1754006400000, 1754352000000⟩).checkOut = 4 ∧
    (mkBooking 0 2 exReqAug ⟨exSpotRate60, 1754006400000, 1754352000000⟩).totalPrice = 240 ∧
    (mkBooking 0 2 exReqAug ⟨exSpotRate60, 1754006400000, 1754352000000⟩).totalPrice =
      (nightsOf (mkBooking 0 2 exReqAug ⟨exSpotRate60, 1754006400000, 1754352000000⟩).checkIn
        (mkBooking 0 2 exReqAug ⟨exSpotRate60, 1754006400000, 1754352000000⟩).checkOut : ℚ)
        * exSpotRate60.price :=
  ⟨rfl, rfl, by decide,
   by norm_num [mkBooking, nightsOf, msPerDay, exSpotRate60, exReqAug],
   (@claim3_pricing [exSpotRate60] [] 0 2 0 exReqAug exSpotRate60
     (mkBooking 0 2 exReqAug ⟨exSpotRate60, 1754006400000, 1754352000000⟩) rfl rfl).1⟩

/-- C8: a reservation created by POST /api/bookings starts CONFIRMED when the
spot has instant booking enabled (isInstantBook) and PENDING otherwise; its
payment status starts PENDING. -/
theorem claim8_initial_status {spots : List CampingSpot} {store : List Booking}
    {nextId userId today : Nat} {req : CreateReq} {spot : CampingSpot} {b : Booking}
    (hok : createBooking spots store nextId userId today req = .ok b)
    (hspot : findSpot spots req.spotId = some spot) :
    b.status = (if spot.isInstantBook then .CONFIRMED else .PENDING) ∧
    b.paymentStatus = .PENDING := by
  obtain ⟨ctx, hv, rfl⟩ := createBooking_ok hok
  obtain ⟨hci, hco, hlt, hfind, hnil⟩ := validateCreate_ok hv
  rw [hspot] at hfind
  have hsp : spot = ctx.spot := Option.some.inj hfind
  subst hsp
  exact ⟨rfl, rfl⟩

/-- C8 witness: the request on the instant-book spot yields CONFIRMED, the
same dates on the regular spot yield PENDING. -/
theorem claim8_initial_status_witness :
    createBooking exSpots [] 0 3 0 exReqInstant =
      .ok (mkBooking 0 3 exReqInstant ⟨exSpotInstant, 10 * msPerDay, 12 * msPerDay⟩) ∧
    (mkBooking 0 3 exReqInstant ⟨exSpotInstant, 10 * msPerDay, 12 * msPerDay⟩).status =
      (if exSpotInstant.isInstantBook then .CONFIRMED else .PENDING) ∧
    (mkBooking 0 3 exReqInstant
      ⟨exSpotInstant, 10 * msPerDay, 12 * msPerDay⟩).status = .CONFIRMED ∧
    (mkBooking 0 2 exReq ⟨exSpot, 10 * msPerDay, 12 * msPerDay⟩).status = .PENDING ∧
    (mkBooking 0 3 exReqInstant
      ⟨exSpotInstant, 10 * msPerDay, 12 * msPerDay⟩).paymentStatus = .PENDING :=
  ⟨rfl,
   (@claim8_initial_status exSpots [] 0 3 0 exReqInstant exSpotInstant
     (mkBooking 0 3 exReqInstant ⟨exSpotInstant, 10 * msPerDay, 12 * msPerDay⟩) rfl rfl).1,
   by decide, by decide,
   (@claim8_initial_status exSpots [] 0 3 0 exReqInstant exSpotInstant
     (mkBooking 0 3 exReqInstant ⟨exSpotInstant, 10 * msPerDay, 12 * msPerDay⟩) rfl rfl).2⟩

/-- C10: a successful requester cancellation replaces the notes with
`"Cancelled: " ++ reason` when a non-empty reason is supplied, keeps the
previous notes when no reason is supplied, and leaves checkIn, checkOut,
guests and totalPrice untouched. -/
theorem claim10_cancel_frame {store : List Booking} {userId bookingId : Nat}
    {reason : Option String} {now : Nat} {booking : Booking}
    {s2 : List Booking} {b2 : Booking}
    (hfind : findUserBooking store userId bookingId = some booking)
    (hok : cancelBooking store userId bookingId reason now = .ok (s2, b2)) :
    b2.checkIn = booking.checkIn ∧ b2.checkOut = booking.checkOut ∧
    b2.guests = booking.guests ∧ b2.totalPrice = booking.totalPrice ∧
    (∀ r, reason = some r → r ≠ "" → b2.notes = some ("Cancelled: " ++ r)) ∧
    ((reason = none ∨ reason = some "") → b2.notes = booking.notes) := by
  obtain ⟨ht, hc, hid, hu, hsp, hci, hco, hg, hp, hst, hps, hn, hs2⟩ :=
    cancelBooking_ok_shape hfind hok
  refine ⟨hci, hco, hg, hp, ?_, ?_⟩
  · intro r hr hne
    rw [hn, hr, cancelNotes, if_pos hne]
  · rintro (hr | hr) <;> rw [hn, hr, cancelNotes]
    simp

/-- C10 witness: cancelling the paid booking 25 hours ahead with reason
"sick" rewrites the notes and keeps dates, guests and price. -/
theorem claim10_cancel_frame_witness :
    findUserBooking [exBooking25h] 2 1 = some exBooking25h ∧
    (∃ s2 b2, cancelBooking [exBooking25h] 2 1 (some "sick") (100 * msPerDay) = .ok (s2, b2) ∧
      b2.checkIn = exBooking25h.checkIn ∧ b2.checkOut = exBooking25h.checkOut ∧
      b2.guests = exBooking25h.guests ∧ b2.totalPrice = exBooking25h.totalPrice ∧
      b2.notes = some "Cancelled: sick") := by
  have hfind : findUserBooking [exBooking25h] 2 1 = some exBooking25h := rfl
  refine ⟨hfind, ?_⟩
  obtain ⟨⟨s2, b2⟩, hok⟩ : ∃ out, cancelBooking [exBooking25h] 2 1 (some "sick")
      (100 * msPerDay) = .ok out :=
    (cancelBooking_ok_iff hfind).mpr
      ⟨by decide, (canCancelBooking_iff _ _).mpr ⟨by decide, by decide⟩⟩
  have hfr := claim10_cancel_frame hfind hok
  exact ⟨s2, b2, hok, hfr.1, hfr.2.1, hfr.2.2.1, hfr.2.2.2.1,
    hfr.2.2.2.2.1 "sick" rfl (by decide)⟩

/-- C4: for a booking found by requester and id, cancellation succeeds iff the
status is not terminal (CANCELLED, COMPLETED, REFUNDED) and check-in is at
least 24 hours away; a terminal state is refused with its dedicated message
and a live booking inside the 24-hour window with the window message. -/
theorem claim4_cancellation_window {store : List Booking} {userId bookingId : Nat}
    {reason : Option String} {now : Nat} {booking : Booking}
    (hfind : findUserBooking store userId bookingId = some booking) :
    ((∃ out, cancelBooking store userId bookingId reason now = .ok out) ↔
      (isTerminalStatus booking.status = false ∧
        (86400000 : Int) ≤ (booking.checkIn : Int) - (now : Int))) ∧
    (isTerminalStatus booking.status = true →
      (cancelBooking store userId bookingId reason now = .error .alreadyCancelled ∨
       cancelBooking store userId bookingId reason now = .error .cannotCancelCompleted ∨
       cancelBooking store userId bookingId reason now = .error .cannotCancelRefunded)) ∧
    (isTerminalStatus booking.status = false →
      ¬ (86400000 : Int) ≤ (booking.checkIn : Int) - (now : Int) →
      cancelBooking store userId bookingId reason now = .error .windowExpired) := by
  refine ⟨?_, fun ht => cancel_terminal_error hfind ht, ?_⟩
  · rw [cancelBooking_ok_iff hfind]
    constructor
    · rintro ⟨ht, hc⟩
      exact ⟨ht, ((canCancelBooking_iff booking now).mp hc).1⟩
    · rintro ⟨ht, hw⟩
      exact ⟨ht, (canCancelBooking_iff booking now).mpr ⟨hw, ht⟩⟩
  · intro ht hw
    have hterm := ht
    simp only [isTerminalStatus, Bool.or_eq_false_iff, beq_eq_false_iff_ne, ne_eq] at hterm
    have hcc : canCancelBooking booking now = false := by
      cases hval : canCancelBooking booking now
      · rfl
      · exact absurd ((canCancelBooking_iff booking now).mp hval).1 hw
    simp only [cancelBooking, hfind]
    rw [if_neg hterm.1.1, if_neg hterm.1.2, if_neg hterm.2, if_pos (by simp [hcc])]

/-- C4 witness: with now at day 100, a CONFIRMED booking 25 hours ahead can be
cancelled while one 23 hours ahead is refused with the window message. -/
theorem claim4_cancellation_window_witness :
    findUserBooking [exBooking25h] 2 1 = some exBooking25h ∧
    findUserBooking [exBooking23h] 2 1 = some exBooking23h ∧
    (∃ out, cancelBooking [exBooking25h] 2 1 none (100 * msPerDay) = .ok out) ∧
    cancelBooking [exBooking23h] 2 1 none (100 * msPerDay) = .error .windowExpired :=
  ⟨rfl, rfl,
   (@claim4_cancellation_window [exBooking25h] 2 1 none (100 * msPerDay)
     exBooking25h rfl).1.mpr ⟨by decide, by decide⟩,
   (@claim4_cancellation_window [exBooking23h] 2 1 none (100 * msPerDay)
     exBooking23h rfl).2.2 (by decide) (by decide)⟩

/-- C9: for a booking of the requester with a valid rating, a review is
created iff the booking is COMPLETED with payment PAID and the
(requester, spot) pair has no prior review; a booking in the wrong state is
refused with the eligibility error and an already-reviewed pair with the
duplicate error, neither adding a review. -/
theorem claim9_review_gating {store : List Booking} {reviews : List Review}
    {userId bookingId rating : Nat} {comment : Option String} {booking : Booking}
    (hrating : ¬ (rating = 0 ∨ rating < 1 ∨ 5 < rating))
    (hfind : findUserBooking store userId bookingId = some booking) :
    ((∃ out, addReview store reviews userId bookingId rating comment = .ok out) ↔
      (booking.status = .COMPLETED ∧ booking.paymentStatus = .PAID ∧
        ¬ ∃ r ∈ reviews, r.userId = userId ∧ r.spotId = booking.spotId)) ∧
    (¬ (booking.status = .COMPLETED ∧ booking.paymentStatus = .PAID) →
      addReview store reviews userId bookingId rating comment =
        .error .notEligibleForReview) ∧
    ((booking.status = .COMPLETED ∧ booking.paymentStatus = .PAID) →
      (∃ r ∈ reviews, r.userId = userId ∧ r.spotId = booking.spotId) →
      addReview store reviews userId bookingId rating comment =
        .error .duplicateReview) := by
  obtain ⟨hiff, hnel, hdup⟩ :=
    @addReview_ok_iff store reviews userId bookingId rating comment booking hrating hfind
  refine ⟨?_, ?_, ?_⟩
  · rw [hiff]
    constructor
    · rintro ⟨hel, hno⟩
      obtain ⟨h1, h2⟩ := (canReviewBooking_iff booking).mp hel
      exact ⟨h1, h2, hno⟩
    · rintro ⟨h1, h2, hno⟩
      exact ⟨(canReviewBooking_iff booking).mpr ⟨h1, h2⟩, hno⟩
  · intro hnot
    apply hnel
    cases hval : canReviewBooking booking
    · rfl
    · exact absurd ((canReviewBooking_iff booking).mp hval) hnot
  · intro hel hex
    exact hdup ((canReviewBooking_iff booking).mpr hel) hex

/-- C9 witness: a COMPLETED and PAID booking with no prior review is
reviewable; a CONFIRMED booking is refused as not eligible; a second review
of the same pair is refused as duplicate. -/
theorem claim9_review_gating_witness :
    findUserBooking [exCompletedPaid] 2 1 = some exCompletedPaid ∧
    (∃ out, addReview [exCompletedPaid] [] 2 1 4 none = .ok out) ∧
    findUserBooking [exConfirmedPaid] 2 1 = some exConfirmedPaid ∧
    addReview [exConfirmedPaid] [] 2 1 4 none = .error .notEligibleForReview ∧
    addReview [exCompletedPaid] [exReview] 2 1 4 none = .error .duplicateReview :=
  ⟨rfl,
   (@claim9_review_gating [exCompletedPaid] [] 2 1 4 none exCompletedPaid
     (by decide) rfl).1.mpr ⟨by decide, by decide, by decide⟩,
   rfl,
   (@claim9_review_gating [exConfirmedPaid] [] 2 1 4 none exConfirmedPaid
     (by decide) rfl).2.1 (by decide),
   (@claim9_review_gating [exCompletedPaid] [exReview] 2 1 4 none exCompletedPaid
     (by decide) rfl).2.2 ⟨by decide, by decide⟩
     ⟨exReview, by decide, by decide, by decide⟩⟩

/-- C2: for a request passing all non-conflict validations over a store of
valid intervals, POST /api/bookings fails with the dates-unavailable error
iff some PENDING or CONFIRMED booking of the same spot overlaps the
candidate half-open range in the sense `a1 < b2 AND b1 < a2`; with no such
overlap (in particular when an existing stay merely touches at a boundary
day) the booking is accepted. -/
theorem claim2_slotUnavailable_iff_overlap {spots : List CampingSpot}
    {store : List Booking} {nextId userId today : Nat} {req : CreateReq}
    {spot : CampingSpot}
    (hwf : ∀ b ∈ store, b.checkIn < b.checkOut)
    (h1 : ¬ normalizeDate req.checkIn < today)
    (h2 : ¬ normalizeDate req.checkOut ≤ normalizeDate req.checkIn)
    (h3 : ¬ 30 * msPerDay < normalizeDate req.checkOut - normalizeDate req.checkIn)
    (h4 : ¬ (req.guests = 0 ∨ 50 < req.guests))
    (hfind : findSpot spots req.spotId = some spot)
    (h5 : spot.isActive = true)
    (h6 : ¬ spot.capacity < req.guests)
    (h7 : ¬ spot.ownerId = userId) :
    ((∃ e, createBooking spots store nextId userId today req = .error e ∧
        isSlotUnavailable e = true) ↔
      (∃ b ∈ store, b.spotId = req.spotId ∧ activeStatus b.status = true ∧
        specOverlap (normalizeDate req.checkIn) (normalizeDate req.checkOut)
          b.checkIn b.checkOut)) ∧
    ((¬ ∃ b ∈ store, b.spotId = req.spotId ∧ activeStatus b.status = true ∧
        specOverlap (normalizeDate req.checkIn) (normalizeDate req.checkOut)
          b.checkIn b.checkOut) →
      createBooking spots store nextId userId today req =
        .ok (mkBooking nextId userId req
          ⟨spot, normalizeDate req.checkIn, normalizeDate req.checkOut⟩)) := by
  have hred := @validateCreate_reduce spots store userId today req spot h1 h2 h3 h4 hfind h5 h6 h7
  have hci : normalizeDate req.checkIn < normalizeDate req.checkOut := by omega
  have hiff := conflictList_ne_nil_iff store req.spotId
    (normalizeDate req.checkIn) (normalizeDate req.checkOut) hwf hci
  by_cases hconf : conflictList store req.spotId (normalizeDate req.checkIn)
      (normalizeDate req.checkOut) ≠ []
  · rw [if_pos hconf] at hred
    have hcreate : createBooking spots store nextId userId today req =
        .error (.slotUnavailable
          ((conflictList store req.spotId (normalizeDate req.checkIn)
              (normalizeDate req.checkOut)).map fun b => (b.checkIn, b.checkOut))) := by
      unfold createBooking
      rw [hred]
    constructor
    · rw [hcreate]
      constructor
      · intro _
        exact hiff.mp hconf
      · intro _
        exact ⟨_, rfl, rfl⟩
    · intro hno
      exact absurd (hiff.mp hconf) hno
  · rw [if_neg hconf] at hred
    have hnil : conflictList store req.spotId (normalizeDate req.checkIn)
        (normalizeDate req.checkOut) = [] := not_not.mp hconf
    have hcreate := @createBooking_of_validate spots store nextId userId today req
      ⟨spot, normalizeDate req.checkIn, normalizeDate req.checkOut⟩ hred
    constructor
    · rw [hcreate]
      constructor
      · rintro ⟨e, he, _⟩
        exact absurd he (by simp)
      · intro hov
        exact absurd (hiff.mpr hov) (by simp [hnil])
    · intro _
      exact hcreate

/-- C2 witness: with a CONFIRMED stay on days 8..10, a request for days
10..12 of the same spot touches only at the boundary day, is not reported as
a conflict, and is accepted (same-day turnover). -/
theorem claim2_slotUnavailable_iff_overlap_witness :
    (∀ b ∈ [exEarlier], b.checkIn < b.checkOut) ∧
    findSpot exSpots exReq.spotId = some exSpot ∧
    (¬ ∃ b ∈ [exEarlier], b.spotId = exReq.spotId ∧ activeStatus b.status = true ∧
      specOverlap (normalizeDate exReq.checkIn) (normalizeDate exReq.checkOut)
        b.checkIn b.checkOut) ∧
    createBooking exSpots [exEarlier] 1 2 0 exReq =
      .ok (mkBooking 1 2 exReq
        ⟨exSpot, normalizeDate exReq.checkIn, normalizeDate exReq.checkOut⟩) :=
  ⟨by decide, rfl, by decide,
   (@claim2_slotUnavailable_iff_overlap exSpots [exEarlier] 1 2 0 exReq exSpot
     (by decide) (by decide) (by decide) (by decide) (by decide) rfl rfl
     (by decide) (by decide)).2 (by decide)⟩

/-- C1 counterexample: from the empty store, create a booking for days 10..12,
cancel it through the admin endpoint, book the same range again, then set the
first booking back to CONFIRMED through the admin endpoint — the resulting
store holds two active overlapping bookings of the same spot. -/
theorem claim1_counterexample :
    ¬ noDoubleBooking (runOps exSpots exOps).store := by decide

/-- C1 amended: the active reservations of a spot stay pairwise
non-overlapping under every operation sequence whose admin booking updates
only write terminal statuses; the unrestricted admin update can break the
invariant (see the counterexample).  Moreover, of two creations with
overlapping ranges on one spot, the first succeeding forces the second into
the dates-unavailable failure. -/
theorem claim1_amended :
    (∀ spots ops, (∀ op ∈ ops, opSafe op) →
      noDoubleBooking (runOps spots ops).store) ∧
    (∀ spots store nextId u1 u2 t1 t2 r1 r2 b1,
      createBooking spots store nextId u1 t1 r1 = .ok b1 →
      r2.spotId = r1.spotId →
      specOverlap (normalizeDate r2.checkIn) (normalizeDate r2.checkOut)
        b1.checkIn b1.checkOut →
      ¬ normalizeDate r2.checkIn < t2 →
      ¬ normalizeDate r2.checkOut ≤ normalizeDate r2.checkIn →
      ¬ 30 * msPerDay < normalizeDate r2.checkOut - normalizeDate r2.checkIn →
      ¬ (r2.guests = 0 ∨ 50 < r2.guests) →
      (∃ spot2, findSpot spots r2.spotId = some spot2 ∧ spot2.isActive = true ∧
        ¬ spot2.capacity < r2.guests ∧ ¬ spot2.ownerId = u2) →
      ∃ e, createBooking spots (store ++ [b1]) (nextId + 1) u2 t2 r2 = .error e ∧
        isSlotUnavailable e = true) := by
  constructor
  · intro spots ops hsafe
    exact (wf_runOps hsafe).2.2.2
  · intro spots store nextId u1 u2 t1 t2 r1 r2 b1 hok hsp hov hv1 hv2 hv3 hv4 hspot
    obtain ⟨spot2, hfind2, hact2, hcap2, hown2⟩ := hspot
    have hred := @validateCreate_reduce spots (store ++ [b1]) u2 t2 r2 spot2
      hv1 hv2 hv3 hv4 hfind2 hact2 hcap2 hown2
    obtain ⟨ctx, hv, hb1⟩ := createBooking_ok hok
    have hb1sp : b1.spotId = r1.spotId := by rw [hb1]; rfl
    have hb1act : activeStatus b1.status = true := by
      rw [hb1]; exact mkBooking_active _ _ _ _
    have hconf : conflictsWith (normalizeDate r2.checkIn) (normalizeDate r2.checkOut) b1
        = true := specOverlap_imp_conflictsWith _ _ _ hov
    have hmem : b1 ∈ conflictList (store ++ [b1]) r2.spotId
        (normalizeDate r2.checkIn) (normalizeDate r2.checkOut) := by
      unfold conflictList
      rw [List.mem_filter]
      refine ⟨List.mem_append_right _ (List.mem_singleton_self _), ?_⟩
      simp [hb1sp, hsp, hb1act, hconf]
    have hne : conflictList (store ++ [b1]) r2.spotId
        (normalizeDate r2.checkIn) (normalizeDate r2.checkOut) ≠ [] := by
      intro hz
      rw [hz] at hmem
      exact List.not_mem_nil _ hmem
    rw [if_pos hne] at hred
    exact ⟨.slotUnavailable ((conflictList (store ++ [b1]) r2.spotId
        (normalizeDate r2.checkIn) (normalizeDate r2.checkOut)).map
        fun b => (b.checkIn, b.checkOut)),
      by unfold createBooking; rw [hred], rfl⟩

/-- C1 amended witness: a safe two-operation sequence keeps the invariant, and
a second booking of days 10..12 right after a first one is refused as
unavailable. -/
theorem claim1_amended_witness :
    (∀ op ∈ [Op.create 2 0 exReq], opSafe op) ∧
    noDoubleBooking (runOps exSpots [Op.create 2 0 exReq]).store ∧
    createBooking exSpots [] 0 2 0 exReq =
      .ok (mkBooking 0 2 exReq ⟨exSpot, 10 * msPerDay, 12 * msPerDay⟩) ∧
    (∃ e, createBooking exSpots
        ([] ++ [mkBooking 0 2 exReq ⟨exSpot, 10 * msPerDay, 12 * msPerDay⟩]) 1 3 0 exReq =
          .error e ∧ isSlotUnavailable e = true) :=
  ⟨by decide,
   claim1_amended.1 exSpots [Op.create 2 0 exReq] (by decide),
   rfl,
   claim1_amended.2 exSpots [] 0 2 3 0 0 exReq exReq
     (mkBooking 0 2 exReq ⟨exSpot, 10 * msPerDay, 12 * msPerDay⟩)
     rfl rfl (by decide) (by decide) (by decide) (by decide) (by decide)
     ⟨exSpot, rfl, rfl, by decide, by decide⟩⟩

/-- C5 counterexample: on a CANCELLED (terminal) booking, the admin booking
update writes status CONFIRMED and the payment update succeeds — neither
fails with a state-transition error. -/
theorem claim5_counterexample :
    isTerminalStatus exCancelled.status = true ∧
    adminUpdateBooking [exCancelled] 1 (some .CONFIRMED) none none =
      .ok ([{ exCancelled with status := .CONFIRMED }],
        { exCancelled with status := .CONFIRMED }) ∧
    ({ exCancelled with status := .CONFIRMED } : Booking).status ≠ exCancelled.status ∧
    (∃ s2 b2, updatePaymentStatus [exCancelled] 2 1 .PAID none none = .ok (s2, b2)) :=
  ⟨by decide, rfl, by decide, ⟨_, _, rfl⟩⟩

/-- C5 amended: requester cancellation and owner approve/reject do refuse
bookings in a terminal status; but the payment update succeeds on them
(setting the payment axis and leaving the status unchanged) and the admin
booking update succeeds and writes any requested status. -/
theorem claim5_amended :
    (∀ store userId bookingId reason now booking,
      findUserBooking store userId bookingId = some booking →
      isTerminalStatus booking.status = true →
      (cancelBooking store userId bookingId reason now = .error .alreadyCancelled ∨
       cancelBooking store userId bookingId reason now = .error .cannotCancelCompleted ∨
       cancelBooking store userId bookingId reason now = .error .cannotCancelRefunded)) ∧
    (∀ spots store ownerId bookingId status notes booking,
      findOwnerBooking spots store ownerId bookingId = some booking →
      isTerminalStatus booking.status = true →
      (ownerUpdateBooking spots store ownerId bookingId status notes =
          .error .invalidStatus ∨
       ownerUpdateBooking spots store ownerId bookingId status notes =
          .error .onlyPendingBookings)) ∧
    (∀ store userId bookingId ps pm tx booking,
      findUserBooking store userId bookingId = some booking →
      isTerminalStatus booking.status = true →
      ∃ s2 b2, updatePaymentStatus store userId bookingId ps pm tx = .ok (s2, b2) ∧
        b2.status = booking.status ∧ b2.paymentStatus = ps) ∧
    (∀ store bookingId s booking,
      store.find? (fun b => b.id == bookingId) = some booking →
      ∃ s2 b2, adminUpdateBooking store bookingId (some s) none none = .ok (s2, b2) ∧
        b2.status = s) := by
  refine ⟨?_, ?_, ?_, ?_⟩
  · intro store userId bookingId reason now booking hfind ht
    exact cancel_terminal_error hfind ht
  · intro spots store ownerId bookingId status notes booking hfind ht
    by_cases hval : status ≠ BookingStatus.CONFIRMED ∧ status ≠ BookingStatus.CANCELLED
    · left
      unfold ownerUpdateBooking
      rw [if_pos hval]
    · right
      simp only [ownerUpdateBooking, hfind]
      rw [if_neg hval, if_pos (terminal_ne_pending ht)]
  · intro store userId bookingId ps pm tx booking hfind ht
    cases hrun : updatePaymentStatus store userId bookingId ps pm tx with
    | error e =>
      simp only [updatePaymentStatus, hfind] at hrun
      exact Except.noConfusion hrun
    | ok out =>
      obtain ⟨s2, b2⟩ := out
      obtain ⟨hid, hci, hco, hsp, hg, hp, hst, hps, hs2⟩ :=
        updatePaymentStatus_ok_shape hfind hrun
      refine ⟨s2, b2, rfl, ?_, hps⟩
      rw [hst, if_neg]
      rintro ⟨hpay, hpend⟩
      exact terminal_ne_pending ht hpend
  · intro store bookingId s booking hfind
    cases hrun : adminUpdateBooking store bookingId (some s) none none with
    | error e =>
      simp only [adminUpdateBooking, hfind] at hrun
      rw [if_neg (by rintro ⟨hh, _⟩; exact Option.noConfusion hh)] at hrun
      exact Except.noConfusion hrun
    | ok out =>
      obtain ⟨s2, b2⟩ := out
      obtain ⟨hid, hci, hco, hsp, hg, hp, hst, hps, hs2⟩ :=
        adminUpdateBooking_ok_shape hfind hrun
      exact ⟨s2, b2, rfl, by rw [hst]; rfl⟩

/-- C5 amended witness: on the cancelled booking, the requester cancel is
refused as already cancelled, the owner update as not pending, while the
payment update succeeds leaving the status CANCELLED and the admin update
succeeds writing COMPLETED. -/
theorem claim5_amended_witness :
    findUserBooking [exCancelled] 2 1 = some exCancelled ∧
    findOwnerBooking exSpots [exCancelled] 9 1 = some exCancelled ∧
    isTerminalStatus exCancelled.status = true ∧
    (cancelBooking [exCancelled] 2 1 none 0 = .error .alreadyCancelled ∨
     cancelBooking [exCancelled] 2 1 none 0 = .error .cannotCancelCompleted ∨
     cancelBooking [exCancelled] 2 1 none 0 = .error .cannotCancelRefunded) ∧
    (ownerUpdateBooking exSpots [exCancelled] 9 1 .CONFIRMED none =
        .error .invalidStatus ∨
     ownerUpdateBooking exSpots [exCancelled] 9 1 .CONFIRMED none =
        .error .onlyPendingBookings) ∧
    (∃ s2 b2, updatePaymentStatus [exCancelled] 2 1 .PAID none none = .ok (s2, b2) ∧
      b2.status = exCancelled.status ∧ b2.paymentStatus = .PAID) ∧
    (∃ s2 b2, adminUpdateBooking [exCancelled] 1 (some .COMPLETED) none none =
      .ok (s2, b2) ∧ b2.status = .COMPLETED) :=
  ⟨rfl, rfl, by decide,
   claim5_amended.1 [exCancelled] 2 1 none 0 exCancelled rfl (by decide),
   claim5_amended.2.1 exSpots [exCancelled] 9 1 .CONFIRMED none exCancelled rfl (by decide),
   claim5_amended.2.2.1 [exCancelled] 2 1 .PAID none none exCancelled rfl (by decide),
   claim5_amended.2.2.2 [exCancelled] 1 .COMPLETED exCancelled rfl⟩

/-- C6 counterexample: a transient store fault on the first (and only)
transaction attempt of a valid request is surfaced as a 500 infrastructure
error after exactly one attempt — there is no retry and no dates-unavailable
response. -/
theorem claim6_counterexample :
    validateCreate exSpots [] 2 0 exReq = .ok ⟨exSpot, 10 * msPerDay, 12 * msPerDay⟩ ∧
    createBookingWithFaults exSpots [] 0 2 0 exReq [.otherFault] =
      (.storeError .infrastructure500, 1) ∧
    (createBookingWithFaults exSpots [] 0 2 0 exReq [.otherFault]).2 ≠ 2 :=
  ⟨rfl, rfl, by decide⟩

/-- C6 amended: the conflict-check-and-insert transaction is invoked at most
once per request — never retried — and a store fault on that invocation is
surfaced through the catch handler: P2002 as a 409 conflict, P2003 as a 400
reference error, anything else as a 500. -/
theorem claim6_amended :
    (∀ spots store nextId userId today req faults,
      (createBookingWithFaults spots store nextId userId today req faults).2 ≤ 1) ∧
    (∀ spots store nextId userId today req faults ctx f fs,
      validateCreate spots store userId today req = .ok ctx →
      faults = f :: fs →
      createBookingWithFaults spots store nextId userId today req faults =
        (.storeError (mapStoreFault f), 1)) := by
  constructor
  · intro spots store nextId userId today req faults
    unfold createBookingWithFaults
    cases hv : validateCreate spots store userId today req with
    | error e => exact Nat.zero_le 1
    | ok ctx =>
      cases faults with
      | cons f fs => exact Nat.le_refl 1
      | nil =>
        cases htx : txBody store nextId userId req ctx <;> simp [htx]
  · intro spots store nextId userId today req faults ctx f fs hv hf
    subst hf
    unfold createBookingWithFaults
    rw [hv]

/-- C6 amended witness: a P2002 fault on the single transaction attempt of a
valid request surfaces as the 409 conflict response after one attempt. -/
theorem claim6_amended_witness :
    validateCreate exSpots [] 2 0 exReq = .ok ⟨exSpot, 10 * msPerDay, 12 * msPerDay⟩ ∧
    createBookingWithFaults exSpots [] 0 2 0 exReq [.P2002] =
      (.storeError (mapStoreFault .P2002), 1) ∧
    (createBookingWithFaults exSpots [] 0 2 0 exReq [.P2002]).2 ≤ 1 :=
  ⟨rfl,
   claim6_amended.2 exSpots [] 0 2 0 exReq [.P2002]
     ⟨exSpot, 10 * msPerDay, 12 * msPerDay⟩ .P2002 [] rfl rfl,
   claim6_amended.1 exSpots [] 0 2 0 exReq [.P2002]⟩

/-- C7 counterexample: the owner rejection of a PENDING booking whose payment
status is PAID cancels it but leaves the payment status PAID, not REFUNDED. -/
theorem claim7_counterexample :
    exPendingPaid.status = .PENDING ∧ exPendingPaid.paymentStatus = .PAID ∧
    ownerUpdateBooking exSpots [exPendingPaid] 9 1 .CANCELLED none =
      .ok ([{ exPendingPaid with status := .CANCELLED }],
        { exPendingPaid with status := .CANCELLED }) ∧
    ({ exPendingPaid with status := .CANCELLED } : Booking).status = .CANCELLED ∧
    ({ exPendingPaid with status := .CANCELLED } : Booking).paymentStatus ≠ .REFUNDED :=
  ⟨rfl, rfl, rfl, rfl, by decide⟩

/-- C7 amended: the requester cancellation refunds a PAID booking and leaves
any other payment status unchanged; the owner rejection always leaves the
payment status unchanged. -/
theorem claim7_amended :
    (∀ store userId bookingId reason now booking s2 b2,
      findUserBooking store userId bookingId = some booking →
      cancelBooking store userId bookingId reason now = .ok (s2, b2) →
      ((booking.paymentStatus = .PAID → b2.paymentStatus = .REFUNDED) ∧
       (booking.paymentStatus ≠ .PAID → b2.paymentStatus = booking.paymentStatus))) ∧
    (∀ spots store ownerId bookingId status notes booking s2 b2,
      findOwnerBooking spots store ownerId bookingId = some booking →
      ownerUpdateBooking spots store ownerId bookingId status notes = .ok (s2, b2) →
      b2.paymentStatus = booking.paymentStatus) := by
  constructor
  · intro store userId bookingId reason now booking s2 b2 hfind hok
    obtain ⟨ht, hc, hid, hu, hsp, hci, hco, hg, hp, hst, hps, hn, hs2⟩ :=
      cancelBooking_ok_shape hfind hok
    constructor
    · intro hpaid
      rw [hps, if_pos hpaid]
    · intro hnot
      rw [hps, if_neg hnot]
  · intro spots store ownerId bookingId status notes booking s2 b2 hfind hok
    exact (ownerUpdateBooking_ok_shape hfind hok).2.2.2.2.2.2.2.2.2.1

/-- C7 amended witness: cancelling the paid booking 25 hours ahead refunds
it; the owner rejecting the paid pending booking leaves it PAID. -/
theorem claim7_amended_witness :
    findUserBooking [exBooking25h] 2 1 = some exBooking25h ∧
    exBooking25h.paymentStatus = .PAID ∧
    (∃ s2 b2, cancelBooking [exBooking25h] 2 1 none (100 * msPerDay) = .ok (s2, b2) ∧
      b2.paymentStatus = .REFUNDED) ∧
    findOwnerBooking exSpots [exPendingPaid] 9 1 = some exPendingPaid ∧
    (∃ s2 b2, ownerUpdateBooking exSpots [exPendingPaid] 9 1 .CANCELLED none =
      .ok (s2, b2) ∧ b2.paymentStatus = exPendingPaid.paymentStatus) := by
  have hfind : findUserBooking [exBooking25h] 2 1 = some exBooking25h := rfl
  obtain ⟨⟨s2, b2⟩, hok⟩ : ∃ out, cancelBooking [exBooking25h] 2 1 none
      (100 * msPerDay) = .ok out :=
    (cancelBooking_ok_iff hfind).mpr
      ⟨by decide, (canCancelBooking_iff _ _).mpr ⟨by decide, by decide⟩⟩
  refine ⟨hfind, rfl,
    ⟨s2, b2, hok, (claim7_amended.1 _ 2 1 none (100 * msPerDay) exBooking25h s2 b2
      hfind hok).1 rfl⟩, rfl, ?_⟩
  exact ⟨_, _, rfl,
    claim7_amended.2 exSpots [exPendingPaid] 9 1 .CANCELLED none exPendingPaid _ _ rfl rfl⟩
